import Mathlib

/-!
Shallow embedding of the basemap acquisition and mosaic assembly pipeline
(files basemaps_download.py, mosaics_download.py, merge_mosaics.py,
convert_to_geopackage.py).  Pure functions are translated as Lean
functions; the filesystem is explicit state (an association list from
paths to byte contents); HTTP and library calls (requests, rasterio,
urllib) are modelled by explicit response values and oracle parameters;
Python exceptions are Except values.
-/

set_option autoImplicit false

namespace AvalancheDL

/-! ## TimeWindowCalculator

From basemaps_download.py lines 68-73: integer month arithmetic.
Python integers are unbounded, so months and years are Int.
-/

/-- basemaps_download.py line 68:
return (12, year - 1) if month == 1 else (month - 1, year) -/
def get_previous_month (month year : Int) : Int × Int :=
  if month = 1 then (12, year - 1) else (month - 1, year)

/-- basemaps_download.py line 72:
return (1, year + 1) if month == 12 else (month + 1, year) -/
def get_next_month (month year : Int) : Int × Int :=
  if month = 12 then (1, year + 1) else (month + 1, year)

/-- Python format f"\x7bn:02\x7d": zero-pad to width 2. -/
def pad2 (n : Int) : String :=
  if 0 ≤ n ∧ n < 10 then "0" ++ toString n else toString n

/-- mosaics_download.py lines 71-82: same month arithmetic but the result
is returned as strings (f"\x7bprev_month:02\x7d", str(prev_year)).  The
int() coercion of the inputs is modelled by taking Int arguments. -/
def get_previous_month_str (month year : Int) : String × String :=
  let p := if month = 1 then ((12 : Int), year - 1) else (month - 1, year)
  (pad2 p.1, toString p.2)

/-- mosaics_download.py lines 85-96: mirror of get_previous_month_str. -/
def get_next_month_str (month year : Int) : String × String :=
  let p := if month = 12 then ((1 : Int), year + 1) else (month + 1, year)
  (pad2 p.1, toString p.2)

/-! ## Dates and window derivation -/

/-- A Python datetime restricted to the fields the scripts read. -/
structure PyDate where
  year : Int
  month : Int
  day : Int
  deriving DecidableEq, Repr

/-- basemaps_download.py lines 115-117: pre window from dates[0], post
window from dates[-1].  Both windows are (month, year) pairs.  Indexing
an empty list raises in Python, so nonemptiness is a hypothesis. -/
def derive_windows (dates : List PyDate) (h : dates ≠ []) :
    (Int × Int) × (Int × Int) :=
  let first := dates.head h
  let last := dates.getLast h
  (get_previous_month first.month first.year,
   get_next_month last.month last.year)

/-- mosaics_download.py lines 245-256: branches on len(dates) == 1 but
computes the same months; results are formatted strings. -/
def derive_windows_str (dates : List PyDate) (h : dates ≠ []) :
    (String × String) × (String × String) :=
  if dates.length = 1 then
    let d := dates.head h
    (get_previous_month_str d.month d.year, get_next_month_str d.month d.year)
  else
    let first := dates.head h
    let last := dates.getLast h
    (get_previous_month_str first.month first.year,
     get_next_month_str last.month last.year)

/-! ## Filesystem model

Paths are a small inductive covering the files the pipeline touches:
temporary files (NamedTemporaryFile in the system temp directory),
per-tile quad files output_dir/(id)_(tag).tiff, merged rasters
folder/(tag)_merged.tif, and the terrain model folder/dtm.tif.
Distinct constructors model the distinct directories.  File contents
are abstract byte lists.  The filesystem is an association list; a
set shadows older entries.
-/

abbrev Content := List Nat

inductive FPath where
  | tmp (n : Nat)
  | quadFile (inv : String) (tag : String) (id : String)
  | mergedFile (inv : String) (tag : String)
  | dtmFile (inv : String)
  deriving DecidableEq, Repr

abbrev FS := List (FPath × Content)

namespace FS

def lookup : FS → FPath → Option Content
  | [], _ => none
  | (q, c) :: rest, p => if q = p then some c else lookup rest p

def set (fs : FS) (p : FPath) (c : Content) : FS :=
  (p, c) :: fs

def del : FS → FPath → FS
  | [], _ => []
  | (q, c) :: rest, p => if q = p then del rest p else (q, c) :: del rest p

end FS

/-! ## Tile references and transfers

A catalog item carries an id and a download link (basemaps_download.py
lines 171-172).  A transfer either completes with the full content or
fails after having written some proper state of the content; urlretrieve
writes incrementally, so a download is modelled as the sequence of
filesystem snapshots in which the destination holds successive prefixes
of what was transferred.
-/

structure Quad where
  id : String
  download : String
  deriving DecidableEq, Repr

inductive TransferResult where
  | success (c : Content)
  | failed (part : Content)
  deriving DecidableEq, Repr

/-- Snapshots of fs while a transfer writes successive prefixes of c
into path p (the last snapshot holds all of c). -/
def writeStates (fs : FS) (p : FPath) (c : Content) : List FS :=
  (List.range (c.length + 1)).map (fun k => fs.set p (c.take k))

/-! ## TileDownloader, basemaps_download.py lines 170-181

For one quad: if the final path exists, skip.  Otherwise create a fresh
temporary file (NamedTemporaryFile, modelled by index n in the temp
directory), retrieve into it, and shutil.move it to the final path; the
move is modelled as one step.  On a failed transfer the except branch
unlinks the temporary file and the loop continues.  The returned trace
lists every intermediate filesystem state.
-/

def download_tile (inv tag : String) (q : Quad) (res : TransferResult)
    (n : Nat) (fs : FS) : FS × List FS :=
  let fpath := FPath.quadFile inv tag q.id
  if (fs.lookup fpath).isSome then (fs, [fs])
  else
    match res with
    | .success c =>
        let t := FPath.tmp n
        let afterTransfer := fs.set t c
        let afterMove := (afterTransfer.del t).set fpath c
        (afterMove, writeStates fs t c ++ [afterMove])
    | .failed part =>
        let t := FPath.tmp n
        let afterTransfer := fs.set t part
        let cleaned := afterTransfer.del t
        (cleaned, writeStates fs t part ++ [cleaned])

/-- The per-quad loop of basemaps_download.py lines 170-181: the oracle
maps a download link id to its transfer outcome; n numbers the fresh
temporary files.  Per-tile failures are caught, so the loop is total. -/
def download_quads (inv tag : String) (oracle : String → TransferResult) :
    List Quad → Nat → FS → FS
  | [], _, fs => fs
  | q :: rest, n, fs =>
      download_quads inv tag oracle rest (n + 1)
        (download_tile inv tag q (oracle q.id) n fs).1

/-! ## TileDownloader, mosaics_download.py lines 304-314

urllib.request.urlretrieve(link, filename) writes directly to the final
path and there is no try around it: a failed transfer leaves its bytes
at the final path and the exception propagates (Except.error carries
the filesystem at the moment of the abort).
-/

def download_tile_direct (inv tag : String) (q : Quad)
    (res : TransferResult) (fs : FS) : Except FS FS × List FS :=
  let fpath := FPath.quadFile inv tag q.id
  if (fs.lookup fpath).isSome then (.ok fs, [fs])
  else
    match res with
    | .success c => (.ok (fs.set fpath c), writeStates fs fpath c)
    | .failed part => (.error (fs.set fpath part), writeStates fs fpath part)

def download_quads_direct (inv tag : String)
    (oracle : String → TransferResult) : List Quad → FS → Except FS FS
  | [], fs => .ok fs
  | q :: rest, fs =>
      match (download_tile_direct inv tag q (oracle q.id) fs).1 with
      | .error s => .error s
      | .ok s => download_quads_direct inv tag oracle rest s

/-- The content a completed download leaves at the final path: the full
transferred content on success, nothing on failure. -/
def fullContent : TransferResult → Option Content
  | .success c => some c
  | .failed _ => none

/-- A transfer oracle that fails (after writing part) exactly on the
tile whose id is fId and succeeds with body id on every other tile. -/
def failOracle (fId : String) (part : Content) (body : String → Content) :
    String → TransferResult :=
  fun id => if id = fId then .failed part else .success (body id)

/-! ## CatalogClient pagination

A page of the quads listing: the items plus an optional continuation
link (_links._next).  Continuation URLs are opaque to the code, so the
URL type is a parameter; a stub catalog below uses page numbers.
Query parameters of a request are the bbox string and the minimal flag.
-/

abbrev ReqParams := String × Bool

structure QuadsPage (α : Type) where
  items : List Quad
  next : Option α

/-- basemaps_download.py lines 148-158: while url: GET url with the
current params, accumulate items, clear params, follow _next.  The
while loop is given fuel; each iteration issues exactly one request,
logged as (url, params sent). -/
def list_quads_loop {α : Type} (get : α → Option ReqParams → QuadsPage α) :
    Nat → Option α → Option ReqParams → List Quad × List (α × Option ReqParams)
  | 0, _, _ => ([], [])
  | _, none, _ => ([], [])
  | fuel + 1, some url, ps =>
      let page := get url ps
      let rec2 := list_quads_loop get fuel page.next none
      (page.items ++ rec2.1, (url, ps) :: rec2.2)

/-- basemaps_download.py lines 144-158: the listing starts at the quads
URL with params set to the bbox filter and minimal flag. -/
def list_quads {α : Type} (get : α → Option ReqParams → QuadsPage α)
    (startUrl : α) (bboxStr : String) (fuel : Nat) :
    List Quad × List (α × Option ReqParams) :=
  list_quads_loop get fuel (some startUrl) (some (bboxStr, true))

/-- mosaics_download.py lines 289-299: one GET with the bbox params,
data.get("items", []) of that single response; the _next link is never
read. -/
def list_quads_single {α : Type} (get : α → Option ReqParams → QuadsPage α)
    (startUrl : α) (bboxStr : String) :
    List Quad × List (α × Option ReqParams) :=
  let page := get startUrl (some (bboxStr, true))
  (page.items, [(startUrl, some (bboxStr, true))])

/-- A stub catalog serving a fixed list of pages: page i holds
pages[i] and links to page i+1 while one exists.  It ignores the query
parameters it is sent. -/
def pagesServer (pages : List (List Quad)) :
    Nat → Option ReqParams → QuadsPage Nat :=
  fun i _ =>
    ⟨pages.getD i [], if i + 1 < pages.length then some (i + 1) else none⟩

/-- Concrete stub catalog with three pages of one tile each. -/
def stubPages : List (List Quad) :=
  [[⟨"a", "la"⟩], [⟨"b", "lb"⟩], [⟨"c", "lc"⟩]]

/-! ## MosaicMerger

merge_quads (basemaps_download.py lines 76-107) and mergeTiff
(merge_mosaics.py lines 9-42).  rasterio.open is modelled as reading
the bytes from the filesystem and decoding them with openFn (none
models an open that raises on a corrupt file); rasterio.merge.merge is
an external library function, passed in as mergeFn, and it raises on
an empty dataset list, as does the src_files_to_mosaic[0].meta access.
The result counts raster reads (tiles opened) and writes (output files
written); a raised exception is Except.error.
-/

/-- The files input_dir.glob("*.tiff") returns for the quad directory
of one inventory and tag: the quadFile paths present in fs. -/
def glob_quads (fs : FS) (inv tag : String) : List FPath :=
  (fs.map Prod.fst).dedup.filter (fun p =>
    match p with
    | .quadFile i t _ => i = inv ∧ t = tag
    | _ => false)

/-- The list comprehension [rasterio.open(fp) for fp in tiff_files]:
open the tiles in order; the first failure raises. -/
def open_all (openFn : Content → Option Content) (fs : FS) :
    List FPath → Option (List Content)
  | [] => some []
  | fp :: rest =>
      match (fs.lookup fp).bind openFn with
      | none => none
      | some c =>
          match open_all openFn fs rest with
          | none => none
          | some cs => some (c :: cs)

/-- basemaps_download.py lines 76-107.  If the merged output already
exists, return immediately (zero reads, zero writes).  Otherwise open
every globbed tile, merge, and write the output. -/
def merge_quads (openFn : Content → Option Content)
    (mergeFn : List Content → Content) (fs : FS) (inv tag : String) :
    Except (String × FS) (FS × Nat × Nat) :=
  let outputPath := FPath.mergedFile inv tag
  if (fs.lookup outputPath).isSome then .ok (fs, 0, 0)
  else
    let tiffFiles := glob_quads fs inv tag
    match open_all openFn fs tiffFiles with
    | none => .error ("RasterioIOError: failed to open tile", fs)
    | some srcs =>
        if srcs.isEmpty then .error ("IndexError: merge of empty dataset list", fs)
        else .ok (fs.set outputPath (mergeFn srcs), srcs.length, 1)

/-- merge_mosaics.py lines 9-42, the body for one directory name: same
open-merge-write sequence but with no existence check on the output,
so every call re-reads the tiles and rewrites the merged file. -/
def mergeTiff (openFn : Content → Option Content)
    (mergeFn : List Content → Content) (fs : FS) (name suffix : String) :
    Except (String × FS) (FS × Nat × Nat) :=
  let rasterFiles := glob_quads fs name suffix
  match open_all openFn fs rasterFiles with
  | none => .error ("RasterioIOError: failed to open tile", fs)
  | some srcs =>
      if srcs.isEmpty then .error ("IndexError: merge of empty dataset list", fs)
      else .ok (fs.set (FPath.mergedFile name suffix) (mergeFn srcs), srcs.length, 1)

/-! ## Mosaic name lookup

The name__is query of basemaps_download.py lines 129-140 and
mosaics_download.py lines 269-283.  A lookup outcome is either a
transport failure of session.get itself, or a response with a status
code and a JSON body: the outer Option is decodability of the body,
the inner Option is presence of the "mosaics" key, whose value is the
list of mosaic ids.
-/

inductive LookupResponse where
  | transportError
  | response (status : Nat) (json : Option (Option (List String)))
  deriving DecidableEq, Repr

/-- basemaps_download.py lines 129-140: the whole interaction sits in
one try/except, so every failure (transport, raise_for_status on a
4xx/5xx status, decode failure, missing or empty "mosaics" list) is
caught, printed, and turned into a continue; none is the skip signal. -/
def resolve_mosaic (r : LookupResponse) : Option String :=
  match r with
  | .transportError => none
  | .response status json =>
      if 400 ≤ status then none
      else
        match json with
        | none => none
        | some mosaics? =>
            match mosaics?.getD [] with
            | [] => none
            | id :: _ => some id

/-- The per-window loop around the lookup: windows whose resolution
returns none are skipped with continue; the others are processed in
order with their mosaic id. -/
def process_windows {β : Type} (lookup : β → LookupResponse)
    (windows : List β) : List (β × String) :=
  windows.filterMap (fun w => (resolve_mosaic (lookup w)).map (fun id => (w, id)))

/-- mosaics_download.py lines 269-283: session.get is outside the try,
so a transport error propagates (Except.error); a non-200 status, a
decode failure, and a missing or empty "mosaics" key are each printed
and continue (ok none). -/
def resolve_mosaic_single (r : LookupResponse) : Except Unit (Option String) :=
  match r with
  | .transportError => .error ()
  | .response status json =>
      if status ≠ 200 then .ok none
      else
        match json with
        | none => .ok none
        | some mosaics? =>
            match mosaics?.getD [] with
            | [] => .ok none
            | id :: _ => .ok (some id)

/-- The per-window loop of mosaics_download.py: an uncaught lookup
exception aborts the whole loop, dropping the remaining windows. -/
def process_windows_single {β : Type} (lookup : β → LookupResponse) :
    List β → Except Unit (List (β × String))
  | [] => .ok []
  | w :: ws =>
      match resolve_mosaic_single (lookup w) with
      | .error e => .error e
      | .ok none => process_windows_single lookup ws
      | .ok (some id) =>
          match process_windows_single lookup ws with
          | .error e => .error e
          | .ok rest => .ok ((w, id) :: rest)

/-! ## End-to-end entry point, basemaps_download.py lines 210-218

download_basemaps over all inventories (tile failures are caught per
tile, so this phase is a total function on the filesystem), then for
each inventory merge_quads for pre and post and download_dtm — none of
these calls is inside a try, so their exceptions propagate out of
__main__ and the process exits with a failure status.
-/

/-- basemaps_download.py lines 191-207: skip when dtm.tif exists, else
rasterio.open(pre_merged.tif) — raising when it is absent — and write
the clipped terrain model (elevation.clip modelled by dtmOf). -/
def download_dtm (dtmOf : Content → Content) (fs : FS) (inv : String) :
    Except (String × FS) FS :=
  if (fs.lookup (FPath.dtmFile inv)).isSome then .ok fs
  else
    match fs.lookup (FPath.mergedFile inv "pre") with
    | none => .error ("RasterioIOError: pre_merged.tif not found", fs)
    | some c => .ok (fs.set (FPath.dtmFile inv) (dtmOf c))

/-- The download pass of lines 110-181 restricted to its filesystem
effect: for each inventory and each of the pre and post windows,
download the window quads (quadsOf gives the tile listing the catalog
produced for that inventory and tag). -/
def download_basemaps_fs (oracle : String → TransferResult)
    (quadsOf : String → String → List Quad) (invs : List String)
    (fs : FS) : FS :=
  invs.foldl
    (fun acc inv =>
      ["pre", "post"].foldl
        (fun a tag => download_quads inv tag oracle (quadsOf inv tag) 0 a) acc)
    fs

/-- basemaps_download.py lines 213-218: the per-inventory tail of
__main__ — merge pre, merge post, then the terrain model. -/
def process_inventory (openFn : Content → Option Content)
    (mergeFn : List Content → Content) (dtmOf : Content → Content)
    (fs : FS) (inv : String) : Except (String × FS) FS := do
  let r1 ← merge_quads openFn mergeFn fs inv "pre"
  let r2 ← merge_quads openFn mergeFn r1.1 inv "post"
  download_dtm dtmOf r2.1 inv

/-- The for-loop of basemaps_download.py lines 213-218 over the
inventories: an error from any inventory aborts the remaining ones. -/
def run_inventories (openFn : Content → Option Content)
    (mergeFn : List Content → Content) (dtmOf : Content → Content) :
    List String → FS → Except (String × FS) FS
  | [], fs => .ok fs
  | inv :: rest, fs =>
      match process_inventory openFn mergeFn dtmOf fs inv with
      | .error e => .error e
      | .ok fs2 => run_inventories openFn mergeFn dtmOf rest fs2

/-- basemaps_download.py lines 210-218: the whole __main__ block.  Any
error from a merge or terrain step propagates and the run exits with
failure. -/
def run_main (oracle : String → TransferResult)
    (quadsOf : String → String → List Quad)
    (openFn : Content → Option Content)
    (mergeFn : List Content → Content) (dtmOf : Content → Content)
    (invs : List String) (fs : FS) : Except (String × FS) FS :=
  run_inventories openFn mergeFn dtmOf invs
    (download_basemaps_fs oracle quadsOf invs fs)

/-! ## Static inventory tables

mosaics_download.py lines 27-61 and the layer map of
convert_to_geopackage.py lines 6-23.  Paths are component lists.
-/

abbrev PyPath := List String

def ANNOTATIONS_DIR : PyPath := ["..", "landslides-detection-main", "inventories"]

def LOMBOK_PATH : PyPath := ANNOTATIONS_DIR ++ ["Lombok2018"]

def PHILIPPINES_PATH : PyPath := ANNOTATIONS_DIR ++ ["Philippines2019"]

def EMILIA_PATH : PyPath := ANNOTATIONS_DIR ++ ["EmiliaRomagna2023"]

def MICHOACAN_PATH : PyPath := ANNOTATIONS_DIR ++ ["Michoacan2022"]

structure InventoryEntry where
  name : String
  area : PyPath
  dates : List PyDate
  deriving DecidableEq, Repr

/-- mosaics_download.py lines 35-61, verbatim: note that the third
entry (name Michoacan2022) takes its area from EMILIA_PATH and the
fourth (name EmiliaRomagna2023) from MICHOACAN_PATH. -/
def INVENTORIES : List InventoryEntry :=
  [⟨"Lombok2018", LOMBOK_PATH ++ ["area.shp"],
    [⟨2018, 8, 5⟩, ⟨2018, 8, 19⟩]⟩,
   ⟨"Philippines2019", PHILIPPINES_PATH ++ ["area_study.shp"],
    [⟨2019, 10, 16⟩, ⟨2019, 10, 29⟩, ⟨2019, 10, 31⟩, ⟨2019, 12, 15⟩]⟩,
   ⟨"Michoacan2022", EMILIA_PATH ++ ["Area_rev.shp"],
    [⟨2022, 9, 19⟩]⟩,
   ⟨"EmiliaRomagna2023", MICHOACAN_PATH ++ ["investigated_area_LS_Michoacan2022.shp"],
    [⟨2023, 5, 16⟩, ⟨2023, 5, 17⟩]⟩]

/-- convert_to_geopackage.py lines 6-23: folder name mapped to its
area shapefile and its landslides shapefile. -/
def layer_map : List (String × String × String) :=
  [("EmiliaRomagna2023", "Area_rev.shp", "Emilia_landslides_v2.shp"),
   ("Lombok2018", "area.shp", "LS19-08.shp"),
   ("Michoacan2022", "investigated_area_LS_Michoacan2022.shp",
    "Michoacan2022_LS_polygon.shp"),
   ("Philippines2019", "area_study.shp", "landslides_dic2019.shp")]

/-- The invariant of claim C10: the area path of an entry lies in the
annotations directory named after the entry itself. -/
def areaUnderOwnDir (e : InventoryEntry) : Bool :=
  e.area.dropLast = ANNOTATIONS_DIR ++ [e.name]

/-! ## Filesystem lemmas -/

@[simp] theorem FS.lookup_nil (p : FPath) : FS.lookup [] p = none := rfl

@[simp] theorem FS.lookup_set_self (fs : FS) (p : FPath) (c : Content) :
    FS.lookup (fs.set p c) p = some c := by
  simp [FS.set, FS.lookup]

theorem FS.lookup_set_ne (fs : FS) (p q : FPath) (c : Content) (h : p ≠ q) :
    FS.lookup (fs.set p c) q = FS.lookup fs q := by
  simp [FS.set, FS.lookup, h]

@[simp] theorem FS.lookup_del_self (fs : FS) (p : FPath) :
    FS.lookup (fs.del p) p = none := by
  induction fs with
  | nil => simp [FS.del]
  | cons e rest ih =>
    by_cases h : e.1 = p
    · simpa [FS.del, h] using ih
    · simpa [FS.del, h, FS.lookup] using ih

theorem FS.lookup_del_ne (fs : FS) (p q : FPath) (h : p ≠ q) :
    FS.lookup (fs.del p) q = FS.lookup fs q := by
  induction fs with
  | nil => simp [FS.del]
  | cons e rest ih =>
    by_cases he : e.1 = p
    · subst he
      simpa [FS.del, FS.lookup, h] using ih
    · simp [FS.del, he, FS.lookup]
      split <;> simp_all


theorem lookup_set_tmp (fs : FS) (n : Nat) (c : Content) (p : FPath)
    (hp : ∀ m, p ≠ FPath.tmp m) :
    FS.lookup (fs.set (FPath.tmp n) c) p = FS.lookup fs p :=
  FS.lookup_set_ne fs _ _ c (fun h => hp n h.symm)

/-- Writing a temporary file and then unlinking it leaves every
non-temporary path untouched. -/
theorem lookup_tmp_roundtrip (fs : FS) (n : Nat) (c : Content) (p : FPath)
    (hp : ∀ m, p ≠ FPath.tmp m) :
    FS.lookup ((fs.set (FPath.tmp n) c).del (FPath.tmp n)) p = FS.lookup fs p := by
  rw [FS.lookup_del_ne _ _ _ (fun h => hp n h.symm),
    FS.lookup_set_ne _ _ _ _ (fun h => hp n h.symm)]

theorem quad_ne_tmp (i t id : String) (m : Nat) :
    FPath.quadFile i t id ≠ FPath.tmp m := fun h => FPath.noConfusion h

/-! ## Claim C1 -/

theorem list_quads_loop_none {α : Type} (get : α → Option ReqParams → QuadsPage α) :
    ∀ (fuel : Nat) (ps : Option ReqParams),
      list_quads_loop get fuel none ps = ([], []) := by
  intro fuel ps
  cases fuel <;> rfl

/-- One unfolding step of the while loop. -/
theorem list_quads_loop_step {α : Type} (get : α → Option ReqParams → QuadsPage α)
    (fuel : Nat) (url : α) (ps : Option ReqParams) :
    list_quads_loop get (fuel + 1) (some url) ps =
      ((get url ps).items ++ (list_quads_loop get fuel (get url ps).next none).1,
       (url, ps) :: (list_quads_loop get fuel (get url ps).next none).2) := rfl

/-- Behaviour of the pagination loop against the stub catalog: started
at page i with enough fuel, it returns the in-order concatenation of
the items of pages i, i+1, ..., and issues one request per page, the
first carrying the given params and all continuation requests none. -/
theorem pages_loop_spec (pages : List (List Quad)) :
    ∀ (fuel i : Nat) (ps : Option ReqParams),
      i < pages.length → pages.length - i ≤ fuel →
      list_quads_loop (pagesServer pages) fuel (some i) ps =
        ((pages.drop i).flatten,
         (i, ps) :: (List.range' (i + 1) (pages.length - i - 1)).map
           (fun j => (j, (none : Option ReqParams)))) := by
  intro fuel
  induction fuel with
  | zero => intro i ps hi hf; omega
  | succ f ih =>
    intro i ps hi hf
    rw [list_quads_loop_step]
    by_cases hnext : i + 1 < pages.length
    · have hserver : (pagesServer pages i ps).next = some (i + 1) := by
        simp [pagesServer, hnext]
      rw [hserver, ih (i + 1) none hnext (by omega)]
      have hitems : (pagesServer pages i ps).items = pages[i] := by
        simp [pagesServer, List.getElem?_eq_getElem hi]
      rw [hitems]
      have hdrop : pages.drop i = pages[i] :: pages.drop (i + 1) :=
        List.drop_eq_getElem_cons hi
      have hrange : pages.length - i - 1 = (pages.length - (i + 1) - 1) + 1 := by
        omega
      rw [hdrop, List.flatten_cons, hrange, List.range'_succ]
      simp
    · have hserver : (pagesServer pages i ps).next = none := by
        simp [pagesServer, hnext]
      rw [hserver, list_quads_loop_none]
      have hitems : (pagesServer pages i ps).items = pages[i] := by
        simp [pagesServer, List.getElem?_eq_getElem hi]
      have hdrop : pages.drop i = [pages[i]] := by
        rw [List.drop_eq_getElem_cons hi]
        have : pages.drop (i + 1) = [] := List.drop_eq_nil_of_le (by omega)
        rw [this]
      have hrange : pages.length - i - 1 = 0 := by omega
      rw [hitems, hdrop, hrange]
      simp

/-- C1 (amended): in basemaps_download the paginated listing sends the
bbox and minimal parameters only on the first request, every
continuation request carries no query parameters, the loop follows the
_next link until absent, and the result is the in-order concatenation
of the items of all pages with exactly one request per page; in
mosaics_download the tile listing instead issues a single request with
the bbox parameters and returns only the first page, never following
continuation links. -/
theorem C1_pagination (pages : List (List Quad)) (bbox : String) (fuel : Nat)
    (hne : pages ≠ []) (hfuel : pages.length ≤ fuel) :
    (list_quads (pagesServer pages) 0 bbox fuel).1 = pages.flatten ∧
    (list_quads (pagesServer pages) 0 bbox fuel).2 =
      (0, some (bbox, true)) ::
        (List.range' 1 (pages.length - 1)).map
          (fun j => (j, (none : Option ReqParams))) ∧
    (list_quads (pagesServer pages) 0 bbox fuel).2.length = pages.length ∧
    (∀ r ∈ ((list_quads (pagesServer pages) 0 bbox fuel).2).tail, r.2 = none) ∧
    (∀ (pages2 : List (List Quad)) (bbox2 : String),
      list_quads_single (pagesServer pages2) 0 bbox2 =
        (pages2.getD 0 [], [(0, some (bbox2, true))])) := by
  have h0 : 0 < pages.length := List.length_pos.mpr hne
  have hmain := pages_loop_spec pages fuel 0 (some (bbox, true)) h0 (by omega)
  unfold list_quads
  rw [hmain]
  refine ⟨by simp, by simp, ?_, ?_, fun pages2 bbox2 => rfl⟩
  · simp only [List.length_cons, List.length_map, List.length_range']
    omega
  · intro r hr
    simp only [List.tail_cons, List.mem_map] at hr
    obtain ⟨j, _, hj⟩ := hr
    rw [← hj]

/-- Witness for C1: on the three-page stub, the listing returns the
concatenation of all pages and issues exactly three requests. -/
theorem C1_pagination_witness :
    (list_quads (pagesServer stubPages) 0 "bb" 3).1 = stubPages.flatten ∧
    (list_quads (pagesServer stubPages) 0 "bb" 3).2.length = 3 :=
  ⟨(C1_pagination stubPages "bb" 3 (by decide) (by decide)).1,
   (C1_pagination stubPages "bb" 3 (by decide) (by decide)).2.2.1⟩

/-- Counterexample for C1 as stated: the tile listing of
mosaics_download, run against a stubbed catalog of three pages, issues
one request, not three, and does not return the concatenation of the
pages. -/
theorem C1_single_request_counterexample :
    stubPages.length = 3 ∧
    (list_quads_single (pagesServer stubPages) 0 "bb").2.length = 1 ∧
    (list_quads_single (pagesServer stubPages) 0 "bb").1 ≠ stubPages.flatten := by
  refine ⟨by decide, by decide, by decide⟩

/-! ## Claim C2 -/

/-- C2 (amended): in basemaps_download a tile whose final path does not
yet exist is transferred into a temporary file and moved to the final
path only after the transfer completes, so in every intermediate
filesystem state the final path holds either nothing or the complete
content — never a partial transfer; in mosaics_download urlretrieve
writes directly to the final path, and a failed transfer leaves its
partial bytes there while the exception propagates. -/
theorem C2_atomic_download :
    (∀ (inv tag : String) (q : Quad) (res : TransferResult) (n : Nat) (fs : FS),
      fs.lookup (FPath.quadFile inv tag q.id) = none →
      ∀ s ∈ (download_tile inv tag q res n fs).2,
        s.lookup (FPath.quadFile inv tag q.id) = none ∨
        s.lookup (FPath.quadFile inv tag q.id) = fullContent res) ∧
    (∀ (inv tag : String) (q : Quad) (part : Content) (fs : FS),
      fs.lookup (FPath.quadFile inv tag q.id) = none →
      (download_tile_direct inv tag q (.failed part) fs).1 =
        .error (fs.set (FPath.quadFile inv tag q.id) part)) := by
  constructor
  · intro inv tag q res n fs h s hs
    simp only [download_tile, h, Option.isSome_none, Bool.false_eq_true, if_false] at hs
    cases res with
    | success c =>
      rcases List.mem_append.mp hs with h1 | h2
      · obtain ⟨k, _, hk⟩ := List.mem_map.mp h1
        left
        rw [← hk, lookup_set_tmp _ _ _ _ (quad_ne_tmp inv tag q.id)]
        exact h
      · right
        have hs2 : s = ((fs.set (FPath.tmp n) c).del (FPath.tmp n)).set
            (FPath.quadFile inv tag q.id) c := by simpa using h2
        rw [hs2, FS.lookup_set_self]
        rfl
    | failed part =>
      rcases List.mem_append.mp hs with h1 | h2
      · obtain ⟨k, _, hk⟩ := List.mem_map.mp h1
        left
        rw [← hk, lookup_set_tmp _ _ _ _ (quad_ne_tmp inv tag q.id)]
        exact h
      · left
        have hs2 : s = (fs.set (FPath.tmp n) part).del (FPath.tmp n) := by
          simpa using h2
        rw [hs2, lookup_tmp_roundtrip _ _ _ _ (quad_ne_tmp inv tag q.id)]
        exact h
  · intro inv tag q part fs h
    simp [download_tile_direct, h]

/-- Witness for C2: the final state of a successful download holds the
complete content at the final path. -/
theorem C2_atomic_download_witness :
    (download_tile "L" "pre" ⟨"q", "l"⟩ (.success [1, 2]) 0 []).1.lookup
        (FPath.quadFile "L" "pre" "q") = none ∨
    (download_tile "L" "pre" ⟨"q", "l"⟩ (.success [1, 2]) 0 []).1.lookup
        (FPath.quadFile "L" "pre" "q") = fullContent (.success [1, 2]) :=
  C2_atomic_download.1 "L" "pre" ⟨"q", "l"⟩ (.success [1, 2]) 0 [] rfl
    (download_tile "L" "pre" ⟨"q", "l"⟩ (.success [1, 2]) 0 []).1 (by decide)

/-- Counterexample for C2 as stated: in mosaics_download a transfer of
intended content [1, 2] that fails after one byte leaves the partial
file [1] at the final path, and a rerun then skips the tile, mistaking
the partial file for a completed download. -/
theorem C2_partial_at_final_counterexample :
    (download_tile_direct "Lombok2018" "pre" ⟨"q1", "l1"⟩ (.failed [1]) []).1 =
      .error [(FPath.quadFile "Lombok2018" "pre" "q1", [1])] ∧
    FS.lookup [(FPath.quadFile "Lombok2018" "pre" "q1", [1])]
      (FPath.quadFile "Lombok2018" "pre" "q1") = some [1] ∧
    (download_tile_direct "Lombok2018" "pre" ⟨"q1", "l1"⟩ (.success [1, 2])
        [(FPath.quadFile "Lombok2018" "pre" "q1", [1])]).1 =
      .ok [(FPath.quadFile "Lombok2018" "pre" "q1", [1])] := by
  refine ⟨by rfl, by decide, by rfl⟩

/-! ## Claim C3 -/

/-- Behaviour of the basemaps per-tile download loop when the oracle
fails exactly on fId: every other tile ends up on disk with its full
content, the failing tile writes nothing to its final path, and no
temporary file survives. -/
theorem download_quads_spec (inv tag fId : String) (part : Content)
    (body : String → Content) :
    ∀ (quads : List Quad) (n : Nat) (fs : FS),
      (quads.map Quad.id).Nodup →
      (∀ q ∈ quads, fs.lookup (FPath.quadFile inv tag q.id) = none) →
      (∀ m, fs.lookup (FPath.tmp m) = none) →
      (∀ q ∈ quads, q.id ≠ fId →
        (download_quads inv tag (failOracle fId part body) quads n fs).lookup
          (FPath.quadFile inv tag q.id) = some (body q.id)) ∧
      (∀ id, (∀ q ∈ quads, q.id ≠ id) →
        (download_quads inv tag (failOracle fId part body) quads n fs).lookup
          (FPath.quadFile inv tag id) = fs.lookup (FPath.quadFile inv tag id)) ∧
      ((download_quads inv tag (failOracle fId part body) quads n fs).lookup
          (FPath.quadFile inv tag fId) = fs.lookup (FPath.quadFile inv tag fId)) ∧
      (∀ m, (download_quads inv tag (failOracle fId part body) quads n fs).lookup
          (FPath.tmp m) = none) := by
  intro quads
  induction quads with
  | nil =>
    intro n fs _ _ htmp
    exact ⟨by simp, fun id _ => rfl, rfl, htmp⟩
  | cons q0 rest ih =>
    intro n fs hnodup hfresh htmp
    rw [List.map_cons] at hnodup
    obtain ⟨hhead, htail⟩ := List.nodup_cons.mp hnodup
    have hrestne : ∀ q ∈ rest, q.id ≠ q0.id := by
      intro q hq h
      exact hhead (h ▸ List.mem_map_of_mem Quad.id hq)
    have hq0 : fs.lookup (FPath.quadFile inv tag q0.id) = none :=
      hfresh q0 (List.mem_cons_self q0 rest)
    by_cases hqf : q0.id = fId
    · have horacle : failOracle fId part body q0.id = .failed part := by
        simp [failOracle, hqf]
      have hstep :
          download_quads inv tag (failOracle fId part body) (q0 :: rest) n fs =
            download_quads inv tag (failOracle fId part body) rest (n + 1)
              ((fs.set (FPath.tmp n) part).del (FPath.tmp n)) := by
        simp [download_quads, download_tile, horacle, hq0]
      have hfs1_quad : ∀ (i t id : String),
          FS.lookup ((fs.set (FPath.tmp n) part).del (FPath.tmp n))
            (FPath.quadFile i t id) = fs.lookup (FPath.quadFile i t id) :=
        fun i t id => lookup_tmp_roundtrip _ _ _ _ (quad_ne_tmp i t id)
      have hfs1_tmp : ∀ m,
          FS.lookup ((fs.set (FPath.tmp n) part).del (FPath.tmp n))
            (FPath.tmp m) = none := by
        intro m
        by_cases hm : m = n
        · subst hm; exact FS.lookup_del_self _ _
        · rw [FS.lookup_del_ne _ _ _ (by intro hcon; cases hcon; exact hm rfl),
            FS.lookup_set_ne _ _ _ _ (by intro hcon; cases hcon; exact hm rfl)]
          exact htmp m
      obtain ⟨ih1, ih2, ih3, ih4⟩ := ih (n + 1)
        ((fs.set (FPath.tmp n) part).del (FPath.tmp n)) htail
        (fun q hq => (hfs1_quad inv tag q.id).trans
          (hfresh q (List.mem_cons_of_mem q0 hq)))
        hfs1_tmp
      refine ⟨?_, ?_, ?_, by intro m; rw [hstep]; exact ih4 m⟩
      · intro q hq hqne
        rcases List.mem_cons.mp hq with rfl | hq'
        · exact absurd hqf hqne
        · rw [hstep]; exact ih1 q hq' hqne
      · intro id hid
        rw [hstep, ih2 id (fun q hq => hid q (List.mem_cons_of_mem q0 hq))]
        exact hfs1_quad inv tag id
      · rw [hstep, ih3]
        exact hfs1_quad inv tag fId
    · have horacle : failOracle fId part body q0.id = .success (body q0.id) := by
        simp [failOracle, hqf]
      have hstep :
          download_quads inv tag (failOracle fId part body) (q0 :: rest) n fs =
            download_quads inv tag (failOracle fId part body) rest (n + 1)
              (((fs.set (FPath.tmp n) (body q0.id)).del (FPath.tmp n)).set
                (FPath.quadFile inv tag q0.id) (body q0.id)) := by
        simp [download_quads, download_tile, horacle, hq0]
      have hfs1_other : ∀ id, id ≠ q0.id →
          FS.lookup (((fs.set (FPath.tmp n) (body q0.id)).del (FPath.tmp n)).set
              (FPath.quadFile inv tag q0.id) (body q0.id))
            (FPath.quadFile inv tag id) = fs.lookup (FPath.quadFile inv tag id) := by
        intro id hne
        rw [FS.lookup_set_ne _ _ _ _
          (by intro hcon; injection hcon with h1 h2 h3; exact hne h3.symm)]
        exact lookup_tmp_roundtrip _ _ _ _ (quad_ne_tmp inv tag id)
      have hfs1_tmp : ∀ m,
          FS.lookup (((fs.set (FPath.tmp n) (body q0.id)).del (FPath.tmp n)).set
              (FPath.quadFile inv tag q0.id) (body q0.id)) (FPath.tmp m) = none := by
        intro m
        rw [FS.lookup_set_ne _ _ _ _ (quad_ne_tmp inv tag q0.id m)]
        by_cases hm : m = n
        · subst hm; exact FS.lookup_del_self _ _
        · rw [FS.lookup_del_ne _ _ _ (by intro hcon; cases hcon; exact hm rfl),
            FS.lookup_set_ne _ _ _ _ (by intro hcon; cases hcon; exact hm rfl)]
          exact htmp m
      obtain ⟨ih1, ih2, ih3, ih4⟩ := ih (n + 1) _ htail
        (fun q hq => (hfs1_other q.id (hrestne q hq)).trans
          (hfresh q (List.mem_cons_of_mem q0 hq)))
        hfs1_tmp
      refine ⟨?_, ?_, ?_, by intro m; rw [hstep]; exact ih4 m⟩
      · intro q hq hqne
        rcases List.mem_cons.mp hq with rfl | hq'
        · rw [hstep, ih2 q.id (hrestne · ·), FS.lookup_set_self]
        · rw [hstep]; exact ih1 q hq' hqne
      · intro id hid
        have hne : id ≠ q0.id := fun h =>
          hid q0 (List.mem_cons_self q0 rest) h.symm
        rw [hstep, ih2 id (fun q hq => hid q (List.mem_cons_of_mem q0 hq))]
        exact hfs1_other id hne
      · rw [hstep, ih3]
        exact hfs1_other fId (fun h => hqf h.symm)

/-- C3 (amended): in basemaps_download, when the transfer of exactly
one tile of a window fails, the temporary file of the failed tile is
removed, every other tile is still downloaded with its full content,
the failed tile leaves nothing at its final path, and the loop runs to
completion; in mosaics_download there is no per-tile handler, so the
first failing tile aborts the whole pass with the partial file left at
its final path and the remaining tiles never downloaded. -/
theorem C3_partial_failure_isolation :
    (∀ (inv tag fId : String) (part : Content) (body : String → Content)
        (quads : List Quad), (quads.map Quad.id).Nodup →
      (∀ q ∈ quads, q.id ≠ fId →
        (download_quads inv tag (failOracle fId part body) quads 0 []).lookup
          (FPath.quadFile inv tag q.id) = some (body q.id)) ∧
      (download_quads inv tag (failOracle fId part body) quads 0 []).lookup
        (FPath.quadFile inv tag fId) = none ∧
      (∀ m, (download_quads inv tag (failOracle fId part body) quads 0 []).lookup
        (FPath.tmp m) = none)) ∧
    (∀ (inv tag : String) (q : Quad) (rest : List Quad)
        (oracle : String → TransferResult) (part : Content) (fs : FS),
      fs.lookup (FPath.quadFile inv tag q.id) = none →
      oracle q.id = .failed part →
      download_quads_direct inv tag oracle (q :: rest) fs =
        .error (fs.set (FPath.quadFile inv tag q.id) part)) := by
  constructor
  · intro inv tag fId part body quads hnodup
    obtain ⟨h1, _, h3, h4⟩ := download_quads_spec inv tag fId part body quads 0 []
      hnodup (fun q _ => rfl) (fun m => rfl)
    exact ⟨h1, h3, h4⟩
  · intro inv tag q rest oracle part fs h horacle
    simp [download_quads_direct, download_tile_direct, h, horacle]

/-- Witness for C3: with three tiles a, b, c and a failure on b, tile
a is on disk with its content. -/
theorem C3_partial_failure_isolation_witness :
    (download_quads "L" "pre" (failOracle "b" [9] (fun _ => [1]))
        [⟨"a", "x"⟩, ⟨"b", "y"⟩, ⟨"c", "z"⟩] 0 []).lookup
      (FPath.quadFile "L" "pre" "a") = some [1] :=
  (C3_partial_failure_isolation.1 "L" "pre" "b" [9] (fun _ => [1])
      [⟨"a", "x"⟩, ⟨"b", "y"⟩, ⟨"c", "z"⟩] (by decide)).1
    ⟨"a", "x"⟩ (by decide) (by decide)

/-- Counterexample for C3 as stated: in mosaics_download a failure on
the first of two tiles aborts the pass (the exception propagates) and
the remaining tile is never downloaded. -/
theorem C3_abort_counterexample :
    download_quads_direct "L" "pre" (failOracle "a" [7] (fun _ => [1, 2]))
        [⟨"a", "la"⟩, ⟨"b", "lb"⟩] [] =
      .error [(FPath.quadFile "L" "pre" "a", [7])] ∧
    FS.lookup [(FPath.quadFile "L" "pre" "a", [7])]
      (FPath.quadFile "L" "pre" "b") = none := by
  refine ⟨by rfl, by decide⟩

/-! ## Claim C4 -/

/-- C4 (amended): merge_quads of basemaps_download is idempotent on the
output path — when the merged output already exists it returns at once
with the filesystem unchanged and zero raster reads and writes;
mergeTiff of merge_mosaics has no such check and re-reads every tile
and rewrites the merged output on every invocation, whether or not the
output already exists. -/
theorem C4_merge_idempotent :
    (∀ (openFn : Content → Option Content) (mergeFn : List Content → Content)
        (fs : FS) (inv tag : String),
      (fs.lookup (FPath.mergedFile inv tag)).isSome = true →
      merge_quads openFn mergeFn fs inv tag = .ok (fs, 0, 0)) ∧
    (∀ (openFn : Content → Option Content) (mergeFn : List Content → Content)
        (fs : FS) (name suffix : String) (srcs : List Content),
      open_all openFn fs (glob_quads fs name suffix) = some srcs →
      srcs ≠ [] →
      mergeTiff openFn mergeFn fs name suffix =
        .ok (fs.set (FPath.mergedFile name suffix) (mergeFn srcs),
          srcs.length, 1)) := by
  constructor
  · intro openFn mergeFn fs inv tag h
    simp [merge_quads, h]
  · intro openFn mergeFn fs name suffix srcs hsrcs hne
    have hemp : srcs.isEmpty = false := by
      cases srcs with
      | nil => exact absurd rfl hne
      | cons a l => rfl
    simp [mergeTiff, hsrcs, hemp]

/-- Witness for C4: a second merge_quads call with the merged output on
disk is a no-op with zero reads and writes. -/
theorem C4_merge_idempotent_witness :
    merge_quads (fun c => some c) (fun l => l.flatten)
      [(FPath.mergedFile "L" "pre", [5])] "L" "pre" =
      .ok ([(FPath.mergedFile "L" "pre", [5])], 0, 0) :=
  C4_merge_idempotent.1 (fun c => some c) (fun l => l.flatten)
    [(FPath.mergedFile "L" "pre", [5])] "L" "pre" rfl

/-- Counterexample for C4 as stated: mergeTiff invoked with the merged
output already on disk still performs one raster read and one raster
write and replaces the stored output ([5] becomes [1]). -/
theorem C4_rewrite_counterexample :
    FS.lookup [(FPath.mergedFile "L" "pre", [5]), (FPath.quadFile "L" "pre" "a", [1])]
      (FPath.mergedFile "L" "pre") = some [5] ∧
    mergeTiff (fun c => some c) (fun l => l.flatten)
        [(FPath.mergedFile "L" "pre", [5]), (FPath.quadFile "L" "pre" "a", [1])]
        "L" "pre" =
      .ok ((FPath.mergedFile "L" "pre", [1]) ::
        [(FPath.mergedFile "L" "pre", [5]), (FPath.quadFile "L" "pre" "a", [1])], 1, 1) ∧
    FS.lookup ((FPath.mergedFile "L" "pre", [1]) ::
        [(FPath.mergedFile "L" "pre", [5]), (FPath.quadFile "L" "pre" "a", [1])])
      (FPath.mergedFile "L" "pre") = some [1] := by
  refine ⟨by decide, by rfl, by decide⟩

/-! ## Claim C5 -/

/-- C5 (amended): when the quad directory of a window is empty and the
merged output is absent, the merge raises an error (merge of an empty
dataset list) instead of logging and continuing, and no caller catches
it; when any tile fails to open, the merge raises with the filesystem
exactly as it was — in particular no partial or corrupt file is left
at the final merged output path.  mergeTiff behaves the same. -/
theorem C5_merge_failure_modes :
    (∀ (openFn : Content → Option Content) (mergeFn : List Content → Content)
        (fs : FS) (inv tag : String),
      fs.lookup (FPath.mergedFile inv tag) = none →
      glob_quads fs inv tag = [] →
      merge_quads openFn mergeFn fs inv tag =
        .error ("IndexError: merge of empty dataset list", fs)) ∧
    (∀ (openFn : Content → Option Content) (mergeFn : List Content → Content)
        (fs : FS) (inv tag : String),
      fs.lookup (FPath.mergedFile inv tag) = none →
      open_all openFn fs (glob_quads fs inv tag) = none →
      merge_quads openFn mergeFn fs inv tag =
        .error ("RasterioIOError: failed to open tile", fs)) ∧
    (∀ (openFn : Content → Option Content) (mergeFn : List Content → Content)
        (fs : FS) (name suffix : String),
      glob_quads fs name suffix = [] →
      mergeTiff openFn mergeFn fs name suffix =
        .error ("IndexError: merge of empty dataset list", fs)) ∧
    (∀ (openFn : Content → Option Content) (mergeFn : List Content → Content)
        (fs : FS) (name suffix : String),
      open_all openFn fs (glob_quads fs name suffix) = none →
      mergeTiff openFn mergeFn fs name suffix =
        .error ("RasterioIOError: failed to open tile", fs)) := by
  refine ⟨?_, ?_, ?_, ?_⟩
  · intro openFn mergeFn fs inv tag h1 h2
    simp [merge_quads, h1, h2, open_all]
  · intro openFn mergeFn fs inv tag h1 h2
    simp [merge_quads, h1, h2]
  · intro openFn mergeFn fs name suffix h
    simp [mergeTiff, h, open_all]
  · intro openFn mergeFn fs name suffix h
    simp [mergeTiff, h]

/-- Witness for C5: merging an empty window raises. -/
theorem C5_merge_failure_modes_witness :
    merge_quads (fun c => some c) (fun l => l.flatten) [] "L" "pre" =
      .error ("IndexError: merge of empty dataset list", []) :=
  (C5_merge_failure_modes.1 (fun c => some c) (fun l => l.flatten) [] "L" "pre"
    rfl rfl)

/-- Counterexample for C5 as stated: with an empty quad directory the
merge does not log and continue — it raises, and since __main__ has no
handler the whole run aborts with that error. -/
theorem C5_empty_dir_fatal_counterexample :
    merge_quads (fun c => some c) (fun l => l.flatten) [] "Lombok2018" "pre" =
      .error ("IndexError: merge of empty dataset list", []) ∧
    run_main (fun _ => .success []) (fun _ _ => []) (fun c => some c)
        (fun l => l.flatten) (fun c => c) ["Lombok2018"] [] =
      .error ("IndexError: merge of empty dataset list", []) := by
  refine ⟨by rfl, by rfl⟩

/-! ## Claim C6 -/

/-- C6 (amended): only the failures inside the download phase (missing
mosaic, missing quads, per-tile transfer failures) are soft; the merge
and terrain steps run outside any handler, so an error in processing
any inventory propagates out of the main block, the remaining
inventories are not processed, and the process exits with failure. -/
theorem C6_failure_propagation
    (oracle : String → TransferResult) (quadsOf : String → String → List Quad)
    (openFn : Content → Option Content) (mergeFn : List Content → Content)
    (dtmOf : Content → Content) (inv : String) (rest : List String) (fs : FS)
    (e : String × FS)
    (h : process_inventory openFn mergeFn dtmOf
      (download_basemaps_fs oracle quadsOf (inv :: rest) fs) inv = .error e) :
    run_main oracle quadsOf openFn mergeFn dtmOf (inv :: rest) fs = .error e := by
  simp [run_main, run_inventories, h]

/-- Witness for C6: a run over two inventories in which the first
merge fails aborts the whole run. -/
theorem C6_failure_propagation_witness :
    run_main (fun _ => .success []) (fun _ _ => []) (fun c => some c)
        (fun l => l.flatten) (fun c => c) ["A", "B"] [] =
      .error ("IndexError: merge of empty dataset list", []) :=
  C6_failure_propagation (fun _ => .success []) (fun _ _ => []) (fun c => some c)
    (fun l => l.flatten) (fun c => c) "A" ["B"] []
    ("IndexError: merge of empty dataset list", []) (by rfl)

/-- Counterexample for C6 as stated: the end-to-end entry point run on
an inventory whose windows yield no tiles terminates with an error
(failing exit status), not success — the merge failure is not
contained. -/
theorem C6_exit_failure_counterexample :
    run_main (fun _ => .success []) (fun _ _ => []) (fun c => some c)
        (fun l => l.flatten) (fun c => c) ["Lombok2018", "Michoacan2022"] [] =
      .error ("IndexError: merge of empty dataset list", []) := by rfl

/-! ## Claim C7 -/

/-- C7 (amended): in basemaps_download every lookup failure mode —
transport error, 4xx/5xx status, undecodable body, missing or empty
mosaics list — is soft: resolve_mosaic totally returns none and the
window loop skips exactly those windows, processing the others; in
mosaics_download a transport error at request time is outside the try
and propagates as an exception. -/
theorem C7_soft_mosaic_lookup :
    resolve_mosaic .transportError = none ∧
    (∀ (s : Nat) (j : Option (Option (List String))), 400 ≤ s →
      resolve_mosaic (.response s j) = none) ∧
    (∀ s : Nat, s < 400 → resolve_mosaic (.response s none) = none) ∧
    (∀ s : Nat, s < 400 → resolve_mosaic (.response s (some none)) = none) ∧
    (∀ s : Nat, s < 400 → resolve_mosaic (.response s (some (some []))) = none) ∧
    (∀ (s : Nat) (id : String) (rest : List String), s < 400 →
      resolve_mosaic (.response s (some (some (id :: rest)))) = some id) ∧
    (∀ (lookup : Nat → LookupResponse) (windows : List Nat) (w : Nat) (id : String),
      ((w, id) ∈ process_windows lookup windows ↔
        w ∈ windows ∧ resolve_mosaic (lookup w) = some id)) ∧
    resolve_mosaic_single .transportError = .error () := by
  refine ⟨rfl, ?_, ?_, ?_, ?_, ?_, ?_, rfl⟩
  · intro s j h
    simp [resolve_mosaic, h]
  · intro s h
    simp [resolve_mosaic, Nat.not_le.mpr h]
  · intro s h
    simp [resolve_mosaic, Nat.not_le.mpr h]
  · intro s h
    simp [resolve_mosaic, Nat.not_le.mpr h]
  · intro s id rest h
    simp [resolve_mosaic, Nat.not_le.mpr h]
  · intro lookup windows w id
    simp only [process_windows, List.mem_filterMap, Option.map_eq_some']
    constructor
    · rintro ⟨a, ha, x, hx, hax⟩
      injection hax with h1 h2
      subst h1
      subst h2
      exact ⟨ha, hx⟩
    · rintro ⟨hw, hres⟩
      exact ⟨w, hw, id, hres, rfl⟩

/-- Witness for C7: a 404 on the name lookup resolves to the soft
no-mosaic signal. -/
theorem C7_soft_mosaic_lookup_witness :
    resolve_mosaic (.response 404 (some (some ["m1"]))) = none :=
  C7_soft_mosaic_lookup.2.1 404 (some (some ["m1"])) (by decide)

/-- Counterexample for C7 as stated: in mosaics_download a transport
error on the lookup request propagates as an exception and the
remaining windows are never processed. -/
theorem C7_transport_error_counterexample :
    resolve_mosaic_single .transportError = .error () ∧
    process_windows_single
        (fun w : Nat => if w = 0 then .transportError
          else .response 200 (some (some ["m"]))) [0, 1] = .error () := by
  refine ⟨by rfl, by rfl⟩

/-! ## Claim C8 -/

/-- C8: previousMonth and nextMonth are total with no error cases,
returning (12, year-1) when month = 1 and (month-1, year) otherwise,
resp. (1, year+1) when month = 12 and (month+1, year) otherwise; for
every month in [1,12] and every year the composition
previousMonth (nextMonth (m, y)) = (m, y), including the rollover edge
previousMonth 1 2020 = (12, 2019) and nextMonth 12 2019 = (1, 2020).
The string-returning variants of mosaics_download agree on the edges
up to zero-padded formatting. -/
theorem C8_month_arithmetic :
    (∀ m y : Int, get_previous_month m y = if m = 1 then (12, y - 1) else (m - 1, y)) ∧
    (∀ m y : Int, get_next_month m y = if m = 12 then (1, y + 1) else (m + 1, y)) ∧
    (∀ m y : Int, 1 ≤ m → m ≤ 12 →
      get_previous_month (get_next_month m y).1 (get_next_month m y).2 = (m, y)) ∧
    get_previous_month 1 2020 = (12, 2019) ∧
    get_next_month 12 2019 = (1, 2020) ∧
    get_previous_month_str 1 2020 = ("12", "2019") ∧
    get_next_month_str 12 2019 = ("01", "2020") := by
  refine ⟨fun m y => rfl, fun m y => rfl, ?_, by decide, by decide, by decide, by decide⟩
  intro m y h1 h2
  by_cases hm : m = 12
  · subst hm
    simp [get_next_month, get_previous_month]
  · have hm1 : ¬(m + 1 = 1) := by omega
    simp [get_next_month, get_previous_month, hm, hm1]

/-- Witness for C8: the round trip at (5, 2021). -/
theorem C8_month_arithmetic_witness :
    get_previous_month (get_next_month 5 2021).1 (get_next_month 5 2021).2 = (5, 2021) :=
  C8_month_arithmetic.2.2.1 5 2021 (by decide) (by decide)

/-! ## Claim C9 -/

/-- C9: window derivation takes the pre window from the month of the
earliest event date and the post window from the month of the latest
event date; for [2018-08-05, 2018-08-19] the windows are pre (7, 2018)
and post (9, 2018), and for the single date [2022-09-19] they are
pre (8, 2022) and post (10, 2022) — in both scripts (the
mosaics_download variant yields the same months as padded strings). -/
theorem C9_window_derivation :
    derive_windows [⟨2018, 8, 5⟩, ⟨2018, 8, 19⟩] (by decide) = ((7, 2018), (9, 2018)) ∧
    derive_windows [⟨2022, 9, 19⟩] (by decide) = ((8, 2022), (10, 2022)) ∧
    derive_windows_str [⟨2018, 8, 5⟩, ⟨2018, 8, 19⟩] (by decide) =
      (("07", "2018"), ("09", "2018")) ∧
    derive_windows_str [⟨2022, 9, 19⟩] (by decide) =
      (("08", "2022"), ("10", "2022")) := by
  refine ⟨by decide, by decide, by decide, by decide⟩

/-! ## Claim C10 -/

/-- C10: the claim asks that every entry of the static inventory table
of mosaics_download keep its area shapefile under the annotations
directory named by its own name field.  The table violates it: the
Michoacan2022 entry points into the EmiliaRomagna2023 directory and
vice versa, while the layer map of convert_to_geopackage pairs
Area_rev.shp with EmiliaRomagna2023 and
investigated_area_LS_Michoacan2022.shp with Michoacan2022 — the two
entries are swapped, a slip in the code. -/
theorem C10_inventory_area_swapped :
    INVENTORIES.map areaUnderOwnDir = [true, true, false, false] ∧
    (INVENTORIES.getD 2 ⟨"", [], []⟩).name = "Michoacan2022" ∧
    (INVENTORIES.getD 2 ⟨"", [], []⟩).area = EMILIA_PATH ++ ["Area_rev.shp"] ∧
    (INVENTORIES.getD 3 ⟨"", [], []⟩).name = "EmiliaRomagna2023" ∧
    (INVENTORIES.getD 3 ⟨"", [], []⟩).area =
      MICHOACAN_PATH ++ ["investigated_area_LS_Michoacan2022.shp"] ∧
    (layer_map.find? (fun e => e.1 = "Michoacan2022")).map (fun e => e.2.1) =
      some "investigated_area_LS_Michoacan2022.shp" ∧
    (layer_map.find? (fun e => e.1 = "EmiliaRomagna2023")).map (fun e => e.2.1) =
      some "Area_rev.shp" := by
  refine ⟨by decide, by decide, by decide, by decide, by decide, by decide, by decide⟩

end AvalancheDL
